import Mathlib

/-!
Shallow embedding of the Hypernode node-client worker (Python) and proofs
about it.  Each definition mirrors one function of the source tree:

* `Config` / `Config.validate`        — src/config.py
* `determineCapabilities` / `detect`  — src/gpu_detector.py
* `sendHeartbeat` / `heartbeatIteration` — src/heartbeat.py, src/main.py
* `registrationPhase`                 — src/main.py (HypernodeWorker.start)
* `pollJob` / `executeJob`            — src/job_executor.py
* `llmValidate` / `llmExecute`        — jobs/base.py, jobs/llm_inference.py

JSON-ish dictionaries are modelled by `JVal` / `JObj`; Python dict.get
returning None is modelled by `jget` returning `JVal.null`, and Python
truthiness by `JVal.truthy`.
-/

/-- A JSON-like value, as passed around in the Python source (job payloads,
result dicts).  `null` stands for Python `None`. -/
inductive JVal where
  | null : JVal
  | b (v : Bool) : JVal
  | s (v : String) : JVal
  | i (v : Int) : JVal
  | q (v : ℚ) : JVal
  | list (vs : List JVal) : JVal
  | obj (fs : List (String × JVal)) : JVal

/-- A Python dict with string keys, as a key-value list. -/
abbrev JObj := List (String × JVal)

/-- `d.get(k)`: the value at key `k`, or `null` (Python `None`) if absent. -/
def jget (o : JObj) (k : String) : JVal :=
  match o.find? (fun p => p.1 == k) with
  | some p => p.2
  | none => JVal.null

/-- `d.get(k, default)`: the value at key `k`, or `default` if absent. -/
def jgetD (o : JObj) (k : String) (default : JVal) : JVal :=
  match o.find? (fun p => p.1 == k) with
  | some p => p.2
  | none => default

/-- Python truthiness of a `JVal` (`if job:` etc.): `None`, `False`, `""`,
`0`, `[]` and `{}` are falsy, everything else truthy. -/
def JVal.truthy : JVal → Bool
  | .null => false
  | .b v => v
  | .s v => v ≠ ""
  | .i v => v ≠ 0
  | .q v => v ≠ 0
  | .list vs => !vs.isEmpty
  | .obj fs => !fs.isEmpty

/-- Python `x == "lit"` where `x` is a `JVal` and the literal is a string:
true only when `x` is that string. -/
def JVal.eqStr : JVal → String → Bool
  | .s v, t => v == t
  | _, _ => false

/-- The fields of a value known to be a dict (`{}` for anything else; the
source only ever reaches these spots with dict values). -/
def JVal.asObj : JVal → JObj
  | .obj fs => fs
  | _ => []

/-- Worker configuration (src/config.py `Config`).  Numeric fields are
Python ints; clamping happens in the env-loading default factories, so the
fields themselves range over all integers. -/
structure Config where
  node_token : String
  wallet_pubkey : String
  backend_url : String
  heartbeat_interval : Int
  max_jobs_concurrent : Int
  gpu_index : Int
  log_level : String
  request_timeout : Int
  job_poll_interval : Int

/-- Python `s.startswith(p)` over the character sequence of `s`. -/
def pyStartsWith (s p : String) : Bool := p.data.isPrefixOf s.data

/-- The env-loading clamp for `request_timeout`
(`max(5, min(int(...), 300))` in src/config.py). -/
def clampRequestTimeout (raw : Int) : Int := max 5 (min raw 300)

/-- `Config.validate` (src/config.py): returns `(ok, optional error)`. -/
def Config.validate (c : Config) : Bool × Option String :=
  if c.node_token = "" then
    (false, some "HN_NODE_TOKEN is required")
  else if c.wallet_pubkey = "" ∨ c.wallet_pubkey.length < 32 then
    (false, some "WALLET_PUBKEY is required and must be valid Solana address")
  else if ¬ (pyStartsWith c.backend_url "http://" ∨ pyStartsWith c.backend_url "https://") then
    (false, some "BACKEND_URL must start with http:// or https://")
  else if c.heartbeat_interval < 10 then
    (false, some "HEARTBEAT_INTERVAL must be at least 10 seconds")
  else
    (true, none)

/-- Capability tiering by VRAM in GB
(src/gpu_detector.py `GPUDetector._determine_capabilities`). -/
def determineCapabilities (vram_gb : Int) : List String :=
  if vram_gb ≥ 24 then
    ["inference", "training", "fine_tuning", "render", "vision"]
  else if vram_gb ≥ 12 then
    ["inference", "fine_tuning", "render"]
  else if vram_gb ≥ 8 then
    ["inference", "render"]
  else if vram_gb ≥ 4 then
    ["inference"]
  else
    ["cpu_compute"]

/-- The fields of the snapshot dict that `GPUDetector.detect` computes from
the NVML probe (the OS/CPU/RAM fields are probe-independent and omitted). -/
structure Snapshot where
  model : String
  vram_mb : Nat
  capabilities : List String
deriving DecidableEq

/-- Outcome of the NVML hardware probe inside `GPUDetector.detect`:
either the probe raises before the device name is read (`fail`, covering a
missing pynvml import, `nvmlInit` or `nvmlDeviceGetCount` errors), raises
after the name was assigned (`failAfterName`, e.g. at the memory query), or
completes, reporting a device count and — read only when the count is
positive — the first device's name and total VRAM in MB. -/
inductive ProbeOutcome where
  | fail : ProbeOutcome
  | failAfterName (name : String) : ProbeOutcome
  | ok (deviceCount : Nat) (name : String) (vram_mb : Nat) : ProbeOutcome

/-- `GPUDetector.detect` (src/gpu_detector.py): starts from the
`"Unknown"`/empty-capabilities base dict; on a successful probe with a
positive device count fills model, VRAM and capabilities
(`vram_gb = vram_mb // 1024`); on a probe exception falls into the
`except` branch, whose CPU-only fallback fires only when the model field
still reads `"Unknown"`.  A successful probe with zero devices skips both
the fill and the `except` branch. -/
def detect (probe : ProbeOutcome) : Snapshot :=
  let base : Snapshot := { model := "Unknown", vram_mb := 0, capabilities := [] }
  match probe with
  | .ok deviceCount name vram_mb =>
    if deviceCount > 0 then
      { model := name, vram_mb := vram_mb,
        capabilities := determineCapabilities (vram_mb / 1024 : Nat) }
    else
      base
  | .fail =>
    if base.model = "Unknown" then
      { base with model := "CPU-only (No GPU detected)", capabilities := ["cpu_compute"] }
    else
      base
  | .failAfterName name =>
    let named : Snapshot := { base with model := name }
    if named.model = "Unknown" then
      { named with model := "CPU-only (No GPU detected)", capabilities := ["cpu_compute"] }
    else
      named

/-- Outcome of one heartbeat HTTP attempt as seen by
`HeartbeatManager.send_heartbeat`: a response with some status code, or a
raised transport error. -/
inductive HbOutcome where
  | respStatus (status : Nat) : HbOutcome
  | transportError (msg : String) : HbOutcome

/-- `HeartbeatManager.send_heartbeat` (src/heartbeat.py): true on a 200
response, false on any other status, false on a raised transport error
(the internal `except` catches everything). -/
def sendHeartbeat (o : HbOutcome) : Bool :=
  match o with
  | .respStatus status => if status = 200 then true else false
  | .transportError _ => false

/-- Body of one iteration of `HypernodeWorker._run_heartbeat_loop`
(src/main.py): run `send_heartbeat`, then sleep the configured interval;
an error result would be an exception escaping the body. `send_heartbeat`
is total, so the body always succeeds. -/
def heartbeatLoopBody (cfg : Config) (o : HbOutcome) : Except String (Bool × Int) :=
  let b := sendHeartbeat o
  .ok (b, cfg.heartbeat_interval)

/-- One iteration of the heartbeat loop: the `try` body, with the
`except` branch sleeping the fixed 5-second recovery delay.  Returns the
heartbeat result (false when the body raised) and the sleep taken. -/
def heartbeatIteration (cfg : Config) (o : HbOutcome) : Bool × Int :=
  match heartbeatLoopBody cfg o with
  | .ok r => r
  | .error _ => (false, 5)

/-- How the startup registration phase ends
(src/main.py `HypernodeWorker.start`). -/
inductive StartOutcome where
  | exitFatal (code : Nat) : StartOutcome
  | proceed : StartOutcome
deriving DecidableEq

/-- Trace of the registration phase: how many times `register_node` was
invoked, the sleeps taken (seconds), and whether the worker exits or goes
on to start the loops. -/
structure RegPhase where
  calls : Nat
  sleeps : List Nat
  outcome : StartOutcome
deriving DecidableEq

/-- The registration phase of `HypernodeWorker.start` (src/main.py):
`reg n` is the result of the (n+1)-th `register_node` call.  On a failed
first call the worker sleeps 30 s and retries once; a second failure is
`sys.exit(1)`. -/
def registrationPhase (reg : Nat → Bool) : RegPhase :=
  if reg 0 then
    { calls := 1, sleeps := [], outcome := .proceed }
  else if reg 1 then
    { calls := 2, sleeps := [30], outcome := .proceed }
  else
    { calls := 2, sleeps := [30], outcome := .exitFatal 1 }

/-- An outgoing HTTP request as built in the source: method, URL and the
`timeout=` argument passed to `requests`. -/
structure HttpRequest where
  method : String
  url : String
  timeout : Nat
deriving DecidableEq

/-- The registration request (src/main.py `register_node`): `timeout=10`. -/
def registerRequest (cfg : Config) : HttpRequest :=
  { method := "POST", url := cfg.backend_url ++ "/api/nodes/register", timeout := 10 }

/-- The heartbeat request (src/heartbeat.py `send_heartbeat`): `timeout=10`. -/
def heartbeatRequest (cfg : Config) : HttpRequest :=
  { method := "POST", url := cfg.backend_url ++ "/api/nodes/heartbeat", timeout := 10 }

/-- The job-poll request (src/job_executor.py `poll_job`): `timeout=10`. -/
def pollJobRequest (cfg : Config) : HttpRequest :=
  { method := "GET", url := cfg.backend_url ++ "/api/jobs/available", timeout := 10 }

/-- The result-report request (src/job_executor.py `_report_result`):
`timeout=10`. -/
def reportResultRequest (cfg : Config) (jobId : String) : HttpRequest :=
  { method := "POST", url := cfg.backend_url ++ "/api/jobs/" ++ jobId ++ "/result",
    timeout := 10 }

/-- The failure-report request (src/job_executor.py `_report_failure`):
`timeout=10`. -/
def reportFailureRequest (cfg : Config) (jobId : String) : HttpRequest :=
  { method := "POST", url := cfg.backend_url ++ "/api/jobs/" ++ jobId ++ "/failure",
    timeout := 10 }

/-- Outcome of the poll HTTP call as `JobExecutor.poll_job` sees it: a
raised transport error, or a response with a status code and — consulted
only on status 200 — the result of `response.json()` (which itself may
raise on an unparsable body). -/
inductive PollOutcome where
  | transportError (msg : String) : PollOutcome
  | response (status : Nat) (body : Except String JVal) : PollOutcome

/-- `JobExecutor.poll_job` (src/job_executor.py): returns the job value
from a 200 response whose parsed body is a dict with a truthy `"job"`
entry, `none` in every other case.  Any exception — transport error,
unparsable body, `.get` on a non-dict body, or the `job.get("jobId")` in
the log line when the job entry is a truthy non-dict — is caught by the
surrounding `except`, which returns `None`. -/
def pollJob (o : PollOutcome) : Option JVal :=
  match o with
  | .transportError _ => none
  | .response status body =>
    if status = 200 then
      match body with
      | .error _ => none
      | .ok data =>
        match data with
        | .obj fs =>
          let job := jget fs "job"
          if job.truthy then
            match job with
            | .obj _ => some job
            | _ => none
          else
            none
        | _ => none
    else
      none

/-- One event of the dispatch pipeline of `JobExecutor.execute_job`:
a `_report_result` or `_report_failure` call (both best-effort, they
swallow their own HTTP errors), or a call into a job-handler method
(`validate` / `execute` / `cleanup` of the `jobs/` classes — recorded so
their absence from every trace is checkable). -/
inductive DispatchEvent where
  | reportResult (jobId : JVal) (result : JVal) : DispatchEvent
  | reportFailure (jobId : JVal) (error : String) : DispatchEvent
  | handlerValidate : DispatchEvent
  | handlerExecute : DispatchEvent
  | handlerCleanup : DispatchEvent

/-- `JobExecutor._execute_llm_inference` placeholder result. -/
def llmInferencePlaceholder : JVal :=
  .obj [("output", .s "This is a placeholder result for LLM inference"),
        ("tokens", .i 100), ("time_ms", .i 1500)]

/-- `JobExecutor._execute_fine_tuning` placeholder result. -/
def fineTuningPlaceholder : JVal :=
  .obj [("checkpoint_url", .s "https://example.com/checkpoint.pth"),
        ("loss", .q (1/4)), ("epochs", .i 3)]

/-- `JobExecutor._execute_rag_indexing` placeholder result. -/
def ragIndexingPlaceholder : JVal :=
  .obj [("index_url", .s "https://example.com/index.faiss"),
        ("documents_processed", .i 1000)]

/-- `JobExecutor._execute_vision` placeholder result. -/
def visionPlaceholder : JVal :=
  .obj [("detections", .list []), ("confidence", .q (19/20))]

/-- `JobExecutor._execute_render` placeholder result. -/
def renderPlaceholder : JVal :=
  .obj [("render_url", .s "https://example.com/render.png"), ("frames", .i 1)]

/-- `JobExecutor._execute_generic` placeholder result. -/
def genericPlaceholder : JVal :=
  .obj [("result", .s "Generic job completed"), ("exit_code", .i 0)]

/-- The job-type routing inside `JobExecutor.execute_job`: compare
`job.get("jobType")` against the five known type strings and run the
matching internal `_execute_*` placeholder, the generic one otherwise.
The result is `Except` to reflect the surrounding `try`; every branch of
the source routing returns normally. -/
def routeResult (job : JObj) : Except String JVal :=
  let t := jget job "jobType"
  if t.eqStr "llm_inference" then .ok llmInferencePlaceholder
  else if t.eqStr "llm_fine_tuning" then .ok fineTuningPlaceholder
  else if t.eqStr "rag_indexing" then .ok ragIndexingPlaceholder
  else if t.eqStr "vision_pipeline" then .ok visionPlaceholder
  else if t.eqStr "render" then .ok renderPlaceholder
  else .ok genericPlaceholder

/-- `JobExecutor.execute_job` (src/job_executor.py): route by job type,
report the result on normal completion (returning `True`), report the
failure if the `try` body raised (returning `False`).  The dispatch trace
lists the reporting calls and any handler-method calls made. -/
def executeJob (job : JObj) : List DispatchEvent × Bool :=
  let jobId := jget job "jobId"
  match routeResult job with
  | .ok result => ([.reportResult jobId result], true)
  | .error e => ([.reportFailure jobId e], false)

/-- Number of `_report_result` calls in a dispatch trace. -/
def countResults : List DispatchEvent → Nat
  | [] => 0
  | .reportResult _ _ :: es => countResults es + 1
  | _ :: es => countResults es

/-- Number of `_report_failure` calls in a dispatch trace. -/
def countFailures : List DispatchEvent → Nat
  | [] => 0
  | .reportFailure _ _ :: es => countFailures es + 1
  | _ :: es => countFailures es

/-- Number of handler `validate()` calls in a dispatch trace. -/
def countHandlerValidate : List DispatchEvent → Nat
  | [] => 0
  | .handlerValidate :: es => countHandlerValidate es + 1
  | _ :: es => countHandlerValidate es

/-- Number of handler `execute()` calls in a dispatch trace. -/
def countHandlerExecute : List DispatchEvent → Nat
  | [] => 0
  | .handlerExecute :: es => countHandlerExecute es + 1
  | _ :: es => countHandlerExecute es

/-- Number of handler `cleanup()` calls in a dispatch trace. -/
def countHandlerCleanup : List DispatchEvent → Nat
  | [] => 0
  | .handlerCleanup :: es => countHandlerCleanup es + 1
  | _ :: es => countHandlerCleanup es

/-- `BaseJob.validate` (jobs/base.py): true iff `job_data.get('jobId')`
is truthy. -/
def baseValidate (data : JObj) : Bool :=
  (jget data "jobId").truthy

/-- The `prompt` attribute of `LLMInferenceJob` (jobs/llm_inference.py):
`input_data.get('prompt', '')` over `job_data.get('input', {})`. -/
def llmPrompt (data : JObj) : JVal :=
  jgetD (jgetD data "input" (.obj [])).asObj "prompt" (.s "")

/-- The `model_name` attribute of `LLMInferenceJob`:
`input_data.get('model', 'Qwen/Qwen-7B')`. -/
def llmModelName (data : JObj) : JVal :=
  jgetD (jgetD data "input" (.obj [])).asObj "model" (.s "Qwen/Qwen-7B")

/-- `LLMInferenceJob.validate` (jobs/llm_inference.py): the base check
plus a truthy prompt. -/
def llmValidate (data : JObj) : Bool :=
  if ¬ baseValidate data then false
  else if ¬ (llmPrompt data).truthy then false
  else true

/-- Outcome of the external model-load/generate steps inside
`LLMInferenceJob.execute`: generated text and a token count, or a raised
error (caught by the handler's own `except`). -/
inductive InferOutcome where
  | ok (text : String) (tokensGenerated : Nat) : InferOutcome
  | raised (msg : String) : InferOutcome

/-- The dict `LLMInferenceJob.execute` returns when its own `validate`
check fails. -/
def llmValidationFailedResult : JVal :=
  .obj [("success", .b false), ("error", .s "Validation failed")]

/-- `LLMInferenceJob.execute` (jobs/llm_inference.py): re-runs `validate`
first and returns the validation-failed dict without touching the model;
otherwise loads the model and generates, mapping a raised error to a
failure dict.  The Bool records whether `load_model` (and so inference)
was ever invoked. -/
def llmExecute (data : JObj) (outcome : InferOutcome) : JVal × Bool :=
  if ¬ llmValidate data then
    (llmValidationFailedResult, false)
  else
    match outcome with
    | .ok text tokensGenerated =>
      (.obj [("success", .b true), ("output", .s text),
             ("model", llmModelName data), ("tokens_generated", .i tokensGenerated)], true)
    | .raised msg =>
      (.obj [("success", .b false), ("error", .s msg)], true)

/-! ## Concrete values used by witnesses and counterexamples -/

/-- A well-formed configuration with the default heartbeat interval (60 s)
and the default request timeout (30 s). -/
def cfgDefault : Config :=
  { node_token := "tok-123", wallet_pubkey := "AaAaAaAaAaAaAaAaAaAaAaAaAaAaAaAa",
    backend_url := "https://api.hypernode.sol", heartbeat_interval := 60,
    max_jobs_concurrent := 1, gpu_index := 0, log_level := "INFO",
    request_timeout := 30, job_poll_interval := 10 }

/-- An llm_inference job whose input mapping has no prompt. -/
def cLlmJobNoPrompt : JObj :=
  [("jobId", JVal.s "j1"), ("jobType", JVal.s "llm_inference"),
   ("type", JVal.s "llm_inference"), ("input", JVal.obj [])]

/-- A render job. -/
def cRenderJob : JObj :=
  [("jobId", JVal.s "j2"), ("jobType", JVal.s "render")]

/-- A job of a type outside the five known type strings. -/
def cUnknownJob : JObj :=
  [("jobId", JVal.s "jX"), ("jobType", JVal.s "matrix_mult")]

/-! ## Claims -/

/-- Claim C3: the derived capability set is exactly the first matching
tier of the descending VRAM table (≥24, ≥12, ≥8, ≥4, otherwise), it is
never empty, and its richness (cardinality) is monotonically
non-decreasing in the VRAM value across the tier boundaries. -/
theorem C3_capability_tiers :
    (∀ v : Int, 24 ≤ v →
      determineCapabilities v = ["inference", "training", "fine_tuning", "render", "vision"]) ∧
    (∀ v : Int, 12 ≤ v → v < 24 →
      determineCapabilities v = ["inference", "fine_tuning", "render"]) ∧
    (∀ v : Int, 8 ≤ v → v < 12 → determineCapabilities v = ["inference", "render"]) ∧
    (∀ v : Int, 4 ≤ v → v < 8 → determineCapabilities v = ["inference"]) ∧
    (∀ v : Int, v < 4 → determineCapabilities v = ["cpu_compute"]) ∧
    (∀ v : Int, determineCapabilities v ≠ []) ∧
    (∀ v w : Int, v ≤ w →
      (determineCapabilities v).length ≤ (determineCapabilities w).length) := by
  refine ⟨?_, ?_, ?_, ?_, ?_, ?_, ?_⟩
  · intro v h; unfold determineCapabilities; split_ifs <;> first | rfl | omega
  · intro v h1 h2; unfold determineCapabilities; split_ifs <;> first | rfl | omega
  · intro v h1 h2; unfold determineCapabilities; split_ifs <;> first | rfl | omega
  · intro v h1 h2; unfold determineCapabilities; split_ifs <;> first | rfl | omega
  · intro v h; unfold determineCapabilities; split_ifs <;> first | rfl | omega
  · intro v; unfold determineCapabilities; split_ifs <;> simp
  · intro v w h
    unfold determineCapabilities
    split_ifs <;> simp_all <;> omega

/-- Witness for C3 at concrete VRAM values on both sides of each tier
boundary. -/
theorem C3_capability_tiers_witness :
    determineCapabilities 24 = ["inference", "training", "fine_tuning", "render", "vision"] ∧
    determineCapabilities 13 = ["inference", "fine_tuning", "render"] ∧
    determineCapabilities 8 = ["inference", "render"] ∧
    determineCapabilities 5 = ["inference"] ∧
    determineCapabilities 3 = ["cpu_compute"] ∧
    determineCapabilities 0 ≠ [] ∧
    (determineCapabilities 3).length ≤ (determineCapabilities 24).length :=
  ⟨C3_capability_tiers.1 24 (by decide),
   C3_capability_tiers.2.1 13 (by decide) (by decide),
   C3_capability_tiers.2.2.1 8 (by decide) (by decide),
   C3_capability_tiers.2.2.2.1 5 (by decide) (by decide),
   C3_capability_tiers.2.2.2.2.1 3 (by decide),
   C3_capability_tiers.2.2.2.2.2.1 0,
   C3_capability_tiers.2.2.2.2.2.2 3 24 (by decide)⟩

/-- Claim C4: when both register attempts fail, the startup phase makes
exactly two register calls (never a third — at most two on any outcome
sequence), sleeps the fixed 30 seconds between them, and exits with the
non-zero status 1; when either attempt succeeds it proceeds to start the
loops. -/
theorem C4_registration_retry (reg : Nat → Bool) :
    (registrationPhase reg).calls ≤ 2 ∧
    (reg 0 = false → reg 1 = false →
      registrationPhase reg = { calls := 2, sleeps := [30], outcome := .exitFatal 1 } ∧
      (1 : Nat) ≠ 0) ∧
    (reg 0 = true ∨ reg 1 = true → (registrationPhase reg).outcome = .proceed) := by
  unfold registrationPhase
  cases h0 : reg 0 <;> cases h1 : reg 1 <;> simp [h0, h1]

/-- Witness for C4: the always-failing and the second-try-succeeding
register oracles. -/
theorem C4_registration_retry_witness :
    (registrationPhase (fun _ => false)).calls ≤ 2 ∧
    registrationPhase (fun _ => false) =
      { calls := 2, sleeps := [30], outcome := .exitFatal 1 } ∧
    (registrationPhase (fun n => n == 1)).outcome = .proceed :=
  ⟨(C4_registration_retry (fun _ => false)).1,
   ((C4_registration_retry (fun _ => false)).2.1 rfl rfl).1,
   (C4_registration_retry (fun n => n == 1)).2.2 (Or.inr rfl)⟩

/-- Claim C5: `Config.validate` returns false exactly when the node token
is empty, the wallet address is shorter than 32 characters, the backend
URL starts with neither `http://` nor `https://`, or the heartbeat
interval is below 10; on every other configuration it returns true. -/
theorem C5_config_validate (c : Config) :
    (Config.validate c).1 = false ↔
      (c.node_token = "" ∨ c.wallet_pubkey.length < 32 ∨
       ¬ (pyStartsWith c.backend_url "http://" ∨ pyStartsWith c.backend_url "https://") ∨
       c.heartbeat_interval < 10) := by
  unfold Config.validate
  split_ifs with h1 h2 h3 h4 <;> simp_all
  rcases h2 with h2 | h2
  · exact Or.inl (by simp [h2])
  · exact Or.inl h2

/-- Witness for C5: the default-style configuration validates, an
empty-token one does not. -/
theorem C5_config_validate_witness :
    ¬ (Config.validate cfgDefault).1 = false ∧
    (Config.validate { cfgDefault with node_token := "" }).1 = false :=
  ⟨fun h => by
      rcases (C5_config_validate cfgDefault).mp h with h | h | h | h <;>
        revert h <;> decide,
   (C5_config_validate { cfgDefault with node_token := "" }).mpr (Or.inl rfl)⟩

/-- Claim C7 (evaluation at the failing probe outcome): when the NVML
probe completes without raising but reports zero GPU devices, `detect`
still returns a snapshot, but its capability list is empty — the CPU-only
fallback lives only in the `except` branch and is skipped, contradicting
the never-empty capability invariant. -/
theorem C7_zero_devices_empty_capabilities :
    detect (ProbeOutcome.ok 0 "NVIDIA GeForce RTX 4090" 24564) =
      { model := "Unknown", vram_mb := 0, capabilities := [] } ∧
    (detect (ProbeOutcome.ok 0 "NVIDIA GeForce RTX 4090" 24564)).capabilities = [] ∧
    (detect ProbeOutcome.fail).capabilities = ["cpu_compute"] ∧
    (detect (ProbeOutcome.ok 1 "NVIDIA GeForce RTX 4090" 24564)).capabilities ≠ [] :=
  ⟨rfl, rfl, rfl, by decide⟩

/-- Claim C8 (counterexample): with the default 60-second heartbeat
interval, a heartbeat attempt that fails with a transport error is
followed by a 60-second sleep — the configured interval, not the claimed
fixed 5-second recovery delay. -/
theorem C8_counterexample :
    sendHeartbeat (HbOutcome.transportError "connection timed out") = false ∧
    (heartbeatIteration cfgDefault (HbOutcome.transportError "connection timed out")).2 = 60 ∧
    (60 : Int) ≠ 5 :=
  ⟨rfl, rfl, by decide⟩

/-- Claim C8 (amended): every iteration of the heartbeat loop sleeps the
configured heartbeat interval, whether the attempt succeeded or failed,
because `send_heartbeat` catches every error internally and returns a
boolean that the loop ignores; the 5-second recovery sleep is reachable
only from an exception escaping the loop body itself. -/
theorem C8_heartbeat_iteration_sleep :
    (∀ (cfg : Config) (o : HbOutcome),
      heartbeatIteration cfg o = (sendHeartbeat o, cfg.heartbeat_interval)) ∧
    sendHeartbeat (HbOutcome.respStatus 200) = true ∧
    (∀ s : Nat, s ≠ 200 → sendHeartbeat (HbOutcome.respStatus s) = false) ∧
    (∀ m : String, sendHeartbeat (HbOutcome.transportError m) = false) := by
  refine ⟨fun cfg o => rfl, rfl, fun s hs => ?_, fun m => rfl⟩
  simp [sendHeartbeat, hs]

/-- Witness for the amended C8 at the default configuration and concrete
outcomes. -/
theorem C8_heartbeat_iteration_sleep_witness :
    heartbeatIteration cfgDefault (HbOutcome.respStatus 503) =
      (sendHeartbeat (HbOutcome.respStatus 503), cfgDefault.heartbeat_interval) ∧
    sendHeartbeat (HbOutcome.respStatus 503) = false :=
  ⟨C8_heartbeat_iteration_sleep.1 cfgDefault (HbOutcome.respStatus 503),
   C8_heartbeat_iteration_sleep.2.2.1 503 (by decide)⟩

/-- Claim C9 (counterexample): with the default configuration the clamped
request timeout is 30 seconds, yet the job-poll request is sent with a
10-second timeout — the configured value is not what bounds the call. -/
theorem C9_counterexample :
    cfgDefault.request_timeout = 30 ∧ clampRequestTimeout 30 = 30 ∧
    (pollJobRequest cfgDefault).timeout = 10 ∧ (10 : Nat) ≠ 30 :=
  ⟨rfl, by decide, rfl, by decide⟩

/-- Claim C9 (amended): every backend HTTP operation — register,
heartbeat, list available jobs, report result, report failure — is sent
with a hard-coded 10-second timeout; the configured request timeout
(which the loader does clamp into 5–300 seconds) is never consulted. -/
theorem C9_fixed_timeouts :
    (∀ (cfg : Config) (jobId : String),
      (registerRequest cfg).timeout = 10 ∧
      (heartbeatRequest cfg).timeout = 10 ∧
      (pollJobRequest cfg).timeout = 10 ∧
      (reportResultRequest cfg jobId).timeout = 10 ∧
      (reportFailureRequest cfg jobId).timeout = 10) ∧
    (∀ raw : Int, 5 ≤ clampRequestTimeout raw ∧ clampRequestTimeout raw ≤ 300) := by
  refine ⟨fun cfg jobId => ⟨rfl, rfl, rfl, rfl, rfl⟩, fun raw => ?_⟩
  unfold clampRequestTimeout
  constructor <;> simp [le_max_iff, max_le_iff, min_le_iff, le_min_iff] <;> omega

/-- Claim C10: `poll_job` is total at the job-loop boundary — a transport
error, a non-200 status, an unparsable 200 body, and a parsed 200 body
without a truthy job entry all yield `none` (indistinguishable from "no
job" to the caller), and a job value is returned only when a 200 response
carries one. -/
theorem C10_poll_job_total :
    (∀ m : String, pollJob (PollOutcome.transportError m) = none) ∧
    (∀ (s : Nat) (b : Except String JVal), s ≠ 200 →
      pollJob (PollOutcome.response s b) = none) ∧
    (∀ m : String, pollJob (PollOutcome.response 200 (.error m)) = none) ∧
    (∀ data : JObj, (jget data "job").truthy = false →
      pollJob (PollOutcome.response 200 (.ok (.obj data))) = none) ∧
    (∀ (o : PollOutcome) (j : JVal), pollJob o = some j →
      ∃ data : JObj, o = PollOutcome.response 200 (.ok (.obj data)) ∧
        jget data "job" = j ∧ j.truthy = true) := by
  refine ⟨fun m => rfl, fun s b hs => ?_, fun m => rfl, fun data hd => ?_, ?_⟩
  · simp [pollJob, hs]
  · simp [pollJob, hd]
  · intro o j h
    match o with
    | .transportError m => simp [pollJob] at h
    | .response status body =>
      by_cases hs : status = 200
      · subst hs
        match body with
        | .error m => simp [pollJob] at h
        | .ok data =>
          match data with
          | .null | .b _ | .s _ | .i _ | .q _ | .list _ => simp [pollJob] at h
          | .obj fs =>
            refine ⟨fs, rfl, ?_⟩
            simp only [pollJob] at h
            by_cases ht : (jget fs "job").truthy
            · rw [if_pos ht] at h
              match hj : jget fs "job" with
              | .obj gs =>
                rw [hj] at h ht
                cases h
                exact ⟨rfl, ht⟩
              | .null | .b _ | .s _ | .i _ | .q _ | .list _ =>
                rw [hj] at h; simp at h
            · rw [if_neg ht] at h; simp at h
      · simp [pollJob, hs] at h

/-- Witness for C10: a rejected poll yields no job; a 200 response with a
job entry yields exactly that job. -/
theorem C10_poll_job_total_witness :
    pollJob (PollOutcome.response 500 (.ok JVal.null)) = none ∧
    ∃ data : JObj,
      PollOutcome.response 200 (.ok (.obj [("job", JVal.obj [("jobId", JVal.s "j9")])])) =
        PollOutcome.response 200 (.ok (.obj data)) ∧
      jget data "job" = JVal.obj [("jobId", JVal.s "j9")] ∧
      (JVal.obj [("jobId", JVal.s "j9")]).truthy = true :=
  ⟨C10_poll_job_total.2.1 500 (.ok JVal.null) (by decide),
   C10_poll_job_total.2.2.2.2
     (PollOutcome.response 200 (.ok (.obj [("job", JVal.obj [("jobId", JVal.s "j9")])])))
     (JVal.obj [("jobId", JVal.s "j9")]) rfl⟩

/-- Claim C6: a job whose type is none of the five known type strings is
routed to the generic placeholder handler; the dispatch completes
normally (no exception, returning `True`) with a single `_report_result`
call carrying the generic success payload. -/
theorem C6_unknown_type_generic (job : JObj)
    (h1 : (jget job "jobType").eqStr "llm_inference" = false)
    (h2 : (jget job "jobType").eqStr "llm_fine_tuning" = false)
    (h3 : (jget job "jobType").eqStr "rag_indexing" = false)
    (h4 : (jget job "jobType").eqStr "vision_pipeline" = false)
    (h5 : (jget job "jobType").eqStr "render" = false) :
    executeJob job =
      ([DispatchEvent.reportResult (jget job "jobId") genericPlaceholder], true) := by
  unfold executeJob routeResult
  simp [h1, h2, h3, h4, h5]

/-- Witness for C6 at a concrete job of unrecognized type. -/
theorem C6_unknown_type_generic_witness :
    executeJob cUnknownJob =
      ([DispatchEvent.reportResult (jget cUnknownJob "jobId") genericPlaceholder], true) :=
  C6_unknown_type_generic cUnknownJob rfl rfl rfl rfl rfl

/-- Every routing branch of `execute_job` completes normally: the
placeholder executors are literal dicts and never raise. -/
theorem routeResult_ok (job : JObj) : ∃ r, routeResult job = .ok r := by
  unfold routeResult
  dsimp only
  split_ifs <;> exact ⟨_, rfl⟩

/-- Claim C1 (counterexample): for the llm_inference job `"j1"` with an
empty input mapping, the handler's `validate()` returns false, yet the
dispatch makes no `_report_failure` call at all and one `_report_result`
call — the claimed validation short-circuit does not exist in the
dispatch pipeline. -/
theorem C1_counterexample :
    llmValidate cLlmJobNoPrompt = false ∧
    countFailures (executeJob cLlmJobNoPrompt).1 = 0 ∧
    countResults (executeJob cLlmJobNoPrompt).1 = 1 ∧
    countHandlerExecute (executeJob cLlmJobNoPrompt).1 = 0 :=
  ⟨rfl, rfl, rfl, rfl⟩

/-- Claim C1 (amended): the dispatch pipeline never consults any job
handler at all — for every dispatched job it makes no handler `validate`
or `execute` call, exactly one `_report_result` call and no
`_report_failure` call, returning `True`; the validation check lives
instead inside the handler's own `execute`, which on a false `validate()`
returns the structured validation-failed payload without ever invoking
model loading or inference. -/
theorem C1_dispatch_validation :
    (∀ job : JObj,
      countHandlerValidate (executeJob job).1 = 0 ∧
      countHandlerExecute (executeJob job).1 = 0 ∧
      countResults (executeJob job).1 = 1 ∧
      countFailures (executeJob job).1 = 0 ∧
      (executeJob job).2 = true) ∧
    (∀ (data : JObj) (outcome : InferOutcome), llmValidate data = false →
      llmExecute data outcome = (llmValidationFailedResult, false)) := by
  constructor
  · intro job
    obtain ⟨r, hr⟩ := routeResult_ok job
    simp [executeJob, hr, countHandlerValidate, countHandlerExecute, countResults,
      countFailures]
  · intro data outcome h
    simp [llmExecute, h]

/-- Witness for the amended C1 at the promptless llm_inference job. -/
theorem C1_dispatch_validation_witness :
    countHandlerValidate (executeJob cLlmJobNoPrompt).1 = 0 ∧
    llmExecute cLlmJobNoPrompt (InferOutcome.ok "hello" 5) =
      (llmValidationFailedResult, false) :=
  ⟨(C1_dispatch_validation.1 cLlmJobNoPrompt).1,
   C1_dispatch_validation.2 cLlmJobNoPrompt (InferOutcome.ok "hello" 5) rfl⟩

/-- Claim C2 (counterexample): dispatching the render job `"j2"` invokes
`cleanup()` zero times, not the claimed exactly once. -/
theorem C2_counterexample :
    countHandlerCleanup (executeJob cRenderJob).1 ≠ 1 ∧
    countHandlerCleanup (executeJob cRenderJob).1 = 0 :=
  ⟨by decide, rfl⟩

/-- Claim C2 (amended): the dispatch pipeline never invokes any handler
`cleanup()` — the count is zero for every dispatched job, whatever its
type or outcome. -/
theorem C2_cleanup_never_called (job : JObj) :
    countHandlerCleanup (executeJob job).1 = 0 := by
  obtain ⟨r, hr⟩ := routeResult_ok job
  simp [executeJob, hr, countHandlerCleanup]
